import Mathlib

/-!
Verification development for the reporting-agent backend's LangChain service
(`LangChainService` in the NestJS backend).  JavaScript strings are modelled as
lists of characters; the service's pure string manipulation, the export tool's
control flow, the S3 upload retry loop, the LLM registry and the two-phase
database resolution are embedded as executable Lean definitions, and the
specification's claims are settled as theorems about them.
-/

namespace ReportingAgent

/-- JavaScript strings are modelled as lists of characters. -/
abbrev Str := List Char

/-- Conversion of a Lean string literal into the list-of-characters model. -/
def str (s : String) : Str := s.data

/-- Whitespace test used by JavaScript `String.prototype.trim` (ASCII part:
space, tab, line feed, carriage return, vertical tab, form feed). -/
def jsWS (c : Char) : Bool :=
  c = ' ' || c = '\t' || c = '\n' || c = '\r' || c = Char.ofNat 11 || c = Char.ofNat 12

/-- JavaScript `String.prototype.trim`: drop whitespace from both ends. -/
def jsTrim (l : Str) : Str :=
  ((l.dropWhile jsWS).reverse.dropWhile jsWS).reverse

/-- JavaScript `String.prototype.split` with a single-character separator:
`"a\nb".split('\n') = ["a","b"]`, `"".split('\n') = [""]`. -/
def splitCh (sep : Char) : Str → List Str
  | [] => [[]]
  | c :: cs =>
    if c = sep then [] :: splitCh sep cs
    else
      match splitCh sep cs with
      | [] => [[c]]
      | h :: t => (c :: h) :: t

/-- JavaScript truthiness of an optional string (`undefined` and `''` are
falsy), as used by `process.env.X || 'default'` and `name || 'Report'`. -/
def jsTruthy (o : Option Str) : Bool :=
  match o with
  | none => false
  | some s => !s.isEmpty

/-- JavaScript `v || d` on an optional string: the default replaces both an
absent and an empty value. -/
def jsOr (v : Option Str) (d : Str) : Str :=
  match v with
  | none => d
  | some s => if s.isEmpty then d else s

/-- Characters removed by the sheet-name sanitizer's regular expression
(source: `const invalid = ...` in `createExcelExportTool`). -/
def invalidSheetChar (c : Char) : Bool :=
  c = ':' || c = '\\' || c = '/' || c = '?' || c = '*' || c = '[' || c = ']'

/-- The sheet-name sanitizer's `replace(invalid, ' ')` acting on one character. -/
def replSheetChar (c : Char) : Char :=
  if invalidSheetChar c then ' ' else c

/-- The `(name || 'Report')` step of `sanitizeSheetName`. -/
def sheetNameBase (name : Option Str) : Str :=
  match name with
  | none => str "Report"
  | some s => if s.isEmpty then str "Report" else s

/-- Embeds `sanitizeSheetName` from `createExcelExportTool`: replace the
invalid characters by spaces, trim, cut to 31 characters, and fall back to
`Report` when the result is empty. -/
def sanitizeSheetName (name : Option Str) : Str :=
  let cleaned := jsTrim ((sheetNameBase name).map replSheetChar)
  let sliced := cleaned.take 31
  if sliced.isEmpty then str "Report" else sliced

/-- Characters kept verbatim by the filename sanitizer's replacement
(`[^a-zA-Z0-9._-]` is replaced by `_`). -/
def fileAllowed (c : Char) : Bool :=
  ('a' ≤ c && c ≤ 'z') || ('A' ≤ c && c ≤ 'Z') || ('0' ≤ c && c ≤ '9') ||
    c = '.' || c = '_' || c = '-'

/-- The filename sanitizer's character replacement. -/
def replFileChar (c : Char) : Char :=
  if fileAllowed c then c else '_'

/-- Decides whether `pat` occurs at the start of `l` (character-wise). -/
def leadsWith : Str → Str → Bool
  | [], _ => true
  | _ :: _, [] => false
  | p :: ps, c :: cs => p = c && leadsWith ps cs

/-- JavaScript `s.split(pat)[0]`: the part of `s` before the first occurrence
of the non-empty pattern `pat`, or all of `s` when `pat` does not occur. -/
def beforeFirst (pat : Str) : Str → Str
  | [] => []
  | c :: cs => if leadsWith pat (c :: cs) then [] else c :: beforeFirst pat cs

/-- JavaScript `name.toLowerCase().endsWith('.xlsx')`. -/
def endsWithXlsx (name : Str) : Bool :=
  leadsWith (str ".xlsx").reverse (name.map Char.toLower).reverse

/-- Decimal rendering of the numeric timestamp interpolated into filenames. -/
def natStr (n : Nat) : Str := (toString n).data

/-- Embeds `sanitizeFilename` from `createExcelExportTool`: append
`_<timestamp>.xlsx` (re-inserting the extension when the lower-cased name
already ends in `.xlsx`), replace every character outside `[a-zA-Z0-9._-]`
by `_`, and cut to 200 characters.  The timestamp `new Date().getTime()` is
passed explicitly as `t`. -/
def sanitizeFilename (t : Nat) (name : Str) : Str :=
  let base : Str :=
    if endsWithXlsx name then
      beforeFirst (str ".xlsx") name ++ str "_" ++ natStr t ++ str ".xlsx"
    else
      name ++ str "_" ++ natStr t ++ str ".xlsx"
  (base.map replFileChar).take 200

/-- The table-name pipeline applied to the result rows of the introspection
query (everything after `split('\n').slice(1)` in `getSqlDatabase`): trim
every line, discard blank lines, keep the trimmed leading `|`-column of each
remaining line, and discard empty names. -/
def parseRows (ls : List Str) : List Str :=
  ((((ls.map jsTrim).filter (fun l => !l.isEmpty)).map
    (fun line => jsTrim ((splitCh '|' line).headD []))).filter
    (fun t => !t.isEmpty))

/-- Embeds the parsing of `tablesResult` in `getSqlDatabase`: split the raw
query output on newlines, skip the header row, then apply `parseRows`. -/
def parseExistingTables (tablesResult : Str) : List Str :=
  parseRows ((splitCh '\n' tablesResult).drop 1)

/-- Embeds the `try`/`catch` around the introspection query in
`getSqlDatabase`: a failed query degrades to the empty table list. -/
def existingTablesOf (introspection : Except Unit Str) : List Str :=
  match introspection with
  | .ok s => parseExistingTables s
  | .error _ => []

/-- The supported database dialects. -/
inductive DbType where
  | postgres
  | mysql
  | sqlite
  | mssql
deriving DecidableEq

/-- Embeds the `UserDatasourceConfig` interface. -/
structure UserDatasourceConfig where
  host : Str
  port : Nat
  database : Str
  username : Str
  password : Str
  type : DbType
deriving DecidableEq

/-- The `appDataSourceOptions` object built inside `getSqlDatabase`, field by
field from the supplied configuration. -/
structure DataSourceOptions where
  type : DbType
  host : Str
  port : Nat
  username : Str
  password : Str
  database : Str
deriving DecidableEq

/-- Embeds `SqlDatabaseOptionsParams` as used in `getSqlDatabase`: the
datasource options plus the optional `ignoreTables` field (`none` when the
options object carries no such key). -/
structure SqlDbOptions where
  appDataSourceOptions : DataSourceOptions
  ignoreTables : Option (List Str)
deriving DecidableEq

/-- The external database server, as far as the resolver can observe it:
whether connections and probe queries succeed, which tables the driver's
metadata exposes when nothing is ignored, and the raw textual result of the
dialect-specific table-enumeration query (`error` when that query throws). -/
structure DbWorld where
  reachable : Bool
  visibleTables : List Str
  introspection : Except Unit Str

/-- Classified resolver errors. -/
inductive DbError where
  /-- `Database connection configuration is required. ...` -/
  | configRequired
  /-- A connection or liveness-probe failure. -/
  | connectivity (msg : Str)
deriving DecidableEq

/-- A live `SqlDatabase` handle: the options it was opened with and the table
set it exposes. -/
structure LiveConn where
  options : SqlDbOptions
  visible : List Str
deriving DecidableEq

/-- Models `SqlDatabase.fromOptionsParams` of the external langchain library
per the spec's interface contract: opening succeeds when the server is
reachable, and the visible table set is the driver's table set minus the
tables listed in `ignoreTables` (no key means nothing is ignored). -/
def fromOptionsParams (w : DbWorld) (o : SqlDbOptions) : Except DbError LiveConn :=
  if w.reachable then
    .ok ⟨o, w.visibleTables.filter (fun t => t ∉ o.ignoreTables.getD [])⟩
  else .error (.connectivity (str "failed to connect"))

/-- The `basicOptions` object of `getSqlDatabase` (first phase,
`ignoreTables: []`). -/
def basicOptionsFor (config : UserDatasourceConfig) : SqlDbOptions :=
  { appDataSourceOptions :=
      ⟨config.type, config.host, config.port, config.username, config.password,
        config.database⟩,
    ignoreTables := some [] }

/-- The `options` object of `getSqlDatabase` (second phase); the source's
object literal carries no `ignoreTables` key. -/
def finalOptionsFor (config : UserDatasourceConfig) : SqlDbOptions :=
  { appDataSourceOptions :=
      ⟨config.type, config.host, config.port, config.username, config.password,
        config.database⟩,
    ignoreTables := none }

/-- Result of a successful resolution: the final connection together with the
table list confirmed by the first-phase introspection. -/
structure ResolveOk where
  conn : LiveConn
  existingTables : List Str
deriving DecidableEq

/-- Embeds `getSqlDatabase`: reject an absent configuration, open the basic
connection, enumerate existing tables (degrading to `[]` on failure), open
the final connection, and run the liveness probe. -/
def getSqlDatabase (w : DbWorld) (connectionConfig : Option UserDatasourceConfig) :
    Except DbError ResolveOk :=
  match connectionConfig with
  | none => .error .configRequired
  | some config =>
    match fromOptionsParams w (basicOptionsFor config) with
    | .error e => .error e
    | .ok _basicSqlDatabase =>
      let existingTables := existingTablesOf w.introspection
      match fromOptionsParams w (finalOptionsFor config) with
      | .error e => .error e
      | .ok sqlDatabase =>
        if w.reachable then .ok ⟨sqlDatabase, existingTables⟩
        else .error (.connectivity (str "test query failed"))

/-- Tests whether a resolution ended in a live connection. -/
def isOkResolve : Except DbError ResolveOk → Bool
  | .ok _ => true
  | .error _ => false

/-- Tests whether a resolution ended in the missing-configuration error. -/
def isConfigError : Except DbError ResolveOk → Bool
  | .error .configRequired => true
  | _ => false

/-- Visible table set of a successful resolution (`[]` on error). -/
def resolveVisible : Except DbError ResolveOk → List Str
  | .ok r => r.conn.visible
  | .error _ => []

/-- Confirmed table list of a successful resolution (`[]` on error). -/
def resolveExisting : Except DbError ResolveOk → List Str
  | .ok r => r.existingTables
  | .error _ => []

/-- A row of query results passed to the export tool (a record from column
names to values; the values play no role in the verified control flow). -/
abbrev Row := List (Str × Str)

/-- The `data` argument of the export tool as it may arrive at `func`:
absent, present but not an array, or an actual array of rows. -/
inductive ExportData where
  | missing
  | notArray
  | arr (rows : List Row)
deriving DecidableEq

/-- The arguments of the export tool's `func`. -/
structure ExportArgs where
  data : ExportData
  filename : Option Str
  sheetName : Option Str
deriving DecidableEq

/-- Environment variables read by `createExcelExportTool`. -/
structure ExportEnv where
  awsS3Bucket : Option Str
  awsRegion : Option Str
  pgDatabase : Option Str
deriving DecidableEq

/-- The `process.env.PG_DATABASE || 'db'` label used both in the default
filename and in the object key. -/
def pgLabel (env : ExportEnv) : Str := jsOr env.pgDatabase (str "db")

/-- The default export filename built in `func`
(`report_<PG_DATABASE||db>_<isoDate>.xlsx`). -/
def defaultExportName (env : ExportEnv) (isoDate : Str) : Str :=
  str "report_" ++ pgLabel env ++ str "_" ++ isoDate ++ str ".xlsx"

/-- The `finalFilename` computed in `func`:
`sanitizeFilename(filename || defaultName)`. -/
def exportFinalFilename (env : ExportEnv) (isoDate : Str) (t : Nat)
    (filenameArg : Option Str) : Str :=
  sanitizeFilename t (jsOr filenameArg (defaultExportName env isoDate))

/-- The S3 object key computed in `func`:
`reports/<PG_DATABASE||db>/<finalFilename>`. -/
def exportObjectKey (env : ExportEnv) (isoDate : Str) (t : Nat)
    (filenameArg : Option Str) : Str :=
  str "reports/" ++ pgLabel env ++ str "/" ++ exportFinalFilename env isoDate t filenameArg

/-- Object key produced when the export tool runs during a turn bound to the
connection `cfg`.  In the source, `createSqlToolkit` binds the connection
while `createExcelExportTool` is constructed with no reference to any
connection, so the key cannot depend on `cfg`; this wrapper makes that
composition explicit. -/
def turnExportObjectKey (_cfg : UserDatasourceConfig) (env : ExportEnv)
    (isoDate : Str) (t : Nat) (filenameArg : Option Str) : Str :=
  exportObjectKey env isoDate t filenameArg

/-- The `maxRetries` constant of the upload retry loop. -/
def maxRetries : Nat := 3

/-- Aggregate error message thrown when all upload attempts are exhausted. -/
def uploadFailMsg : Str := str "S3 upload failed after 3 attempts"

/-- Embeds the `while (uploadAttempts < maxRetries)` retry loop of `func`.
`uploader i` tells whether the `i`-th call of `s3Client.send` succeeds; the
loop guard is represented by the fuel `maxRetries - uploadAttempts`.  The
result carries the loop's outcome (`ok` after a `break`, `error` for the
thrown aggregate failure), the number of `send` calls made, and the list of
backoff delays (`Math.pow(2, uploadAttempts) * 1000` milliseconds) slept
between attempts. -/
def uploadLoop (uploader : Nat → Bool) : Nat → Nat → Except Str Unit × Nat × List Nat
  | 0, _ => (.ok (), 0, [])
  | f + 1, uploadAttempts =>
    if uploader uploadAttempts then (.ok (), 1, [])
    else if maxRetries ≤ uploadAttempts + 1 then (.error uploadFailMsg, 1, [])
    else
      let r := uploadLoop uploader f (uploadAttempts + 1)
      (r.1, r.2.1 + 1, 2 ^ (uploadAttempts + 1) * 1000 :: r.2.2)

/-- The retry loop as entered by `func`: `uploadAttempts = 0`, fuel
`maxRetries`. -/
def runUploadLoop (uploader : Nat → Bool) : Except Str Unit × Nat × List Nat :=
  uploadLoop uploader maxRetries 0

/-- The distinct return points of the export tool's `func`; each constructor
corresponds to one `return` statement in the source. -/
inductive ExportResult where
  /-- `Error: No data parameter provided. ...` -/
  | errNoData
  /-- `Error: Data must be a non-empty array of objects. ...` -/
  | errNotNonEmptyArray
  /-- `File too large (...MB). Please limit your query results ...`;
  carries the serialized workbook's byte length. -/
  | errTooLarge (bytes : Nat)
  /-- The JSON-encoded success payload with public URL and filename. -/
  | success (url filename : Str)
  /-- `Failed to generate and upload Excel file to S3: ...` from the outer
  `catch`, reached when the retry loop throws its aggregate error. -/
  | errUploadFailed
deriving DecidableEq

/-- Observable outcome of one invocation of the export tool's `func`: the
returned result plus the number of `s3Client.send` calls and backoff delays. -/
structure ExportOutcome where
  result : ExportResult
  uploadCalls : Nat
  delays : List Nat
deriving DecidableEq

/-- Embeds the export tool's `func` from `createExcelExportTool`.  External
effects are passed as parameters: `wbSize sheet rows` is the byte length of
the workbook serialized by `XLSX.write`, `uploader` gives the success of each
`s3Client.send` call, `isoDate` is `new Date().toISOString().slice(0,10)` and
`t` is `new Date().getTime()`.  The 50 MB guard `fileSizeMB > 50` with
`fileSizeMB = buffer.length / (1024*1024)` holds exactly when
`buffer.length > 50 * 1024 * 1024`. -/
def excelExportFunc (env : ExportEnv) (wbSize : Str → List Row → Nat)
    (uploader : Nat → Bool) (isoDate : Str) (t : Nat) (args : ExportArgs) :
    ExportOutcome :=
  match args.data with
  | .missing => ⟨.errNoData, 0, []⟩
  | .notArray => ⟨.errNotNonEmptyArray, 0, []⟩
  | .arr rows =>
    if rows.isEmpty then ⟨.errNotNonEmptyArray, 0, []⟩
    else
      let bucketName := jsOr env.awsS3Bucket (str "reporting-agent-files")
      let finalSheetName := sanitizeSheetName args.sheetName
      let finalFilename := exportFinalFilename env isoDate t args.filename
      let objectKey := exportObjectKey env isoDate t args.filename
      let size := wbSize finalSheetName rows
      if 50 * 1024 * 1024 < size then ⟨.errTooLarge size, 0, []⟩
      else
        match runUploadLoop uploader with
        | (.ok _, n, ds) =>
          let publicUrl := str "https://" ++ bucketName ++ str ".s3." ++
            jsOr env.awsRegion (str "us-east-1") ++ str ".amazonaws.com/" ++ objectKey
          ⟨.success publicUrl finalFilename, n, ds⟩
        | (.error _, n, ds) => ⟨.errUploadFailed, n, ds⟩

/-- A constructed chat-model backend: provider family, model name, and the
credential it was configured with. -/
structure LLMHandle where
  provider : Str
  model : Str
  apiKey : Str
deriving DecidableEq

/-- The service's two backend slots (`openaiLLM`, `anthropicLLM`), `none`
when the corresponding credential was absent or empty. -/
structure ServiceState where
  openaiLLM : Option LLMHandle
  anthropicLLM : Option LLMHandle
deriving DecidableEq

/-- Embeds `initializeLLMs`: each backend is constructed exactly when its
API-key environment variable is truthy. -/
def initLLMs (openaiApiKey anthropicApiKey : Option Str) : ServiceState :=
  { openaiLLM :=
      if jsTruthy openaiApiKey then
        some ⟨str "openai", str "gpt-4.1-mini-2025-04-14", (openaiApiKey.getD [])⟩
      else none,
    anthropicLLM :=
      if jsTruthy anthropicApiKey then
        some ⟨str "anthropic", str "claude-3-haiku-20240307", (anthropicApiKey.getD [])⟩
      else none }

/-- The `return this.openaiLLM || this.anthropicLLM` default of `getLLM`. -/
def fallbackLLM (st : ServiceState) : Option LLMHandle :=
  st.openaiLLM.orElse (fun _ => st.anthropicLLM)

/-- Embeds `getLLM`: the `switch` on the provider string falls through to the
default when the named backend is not registered. -/
def getLLM (st : ServiceState) (provider : Option Str) : Option LLMHandle :=
  match provider with
  | some p =>
    if p = str "openai" then
      match st.openaiLLM with
      | some l => some l
      | none => fallbackLLM st
    else if p = str "anthropic" then
      match st.anthropicLLM with
      | some l => some l
      | none => fallbackLLM st
    else fallbackLLM st
  | none => fallbackLLM st

/-- Whether `provider` names a backend registered in `st`. -/
abbrev namesRegisteredLLM (st : ServiceState) (provider : Option Str) : Prop :=
  (provider = some (str "openai") ∧ st.openaiLLM.isSome = true) ∨
    (provider = some (str "anthropic") ∧ st.anthropicLLM.isSome = true)

/-- The backend descriptor returned by `getAvailableLLMs`. -/
structure LLMDescriptor where
  id : Str
  name : Str
  provider : Str
  model : Str
  isAvailable : Bool
deriving DecidableEq

/-- Embeds `getAvailableLLMs`: one literal descriptor pushed per registered
backend. -/
def getAvailableLLMs (st : ServiceState) : List LLMDescriptor :=
  (match st.openaiLLM with
   | some _ =>
     [⟨str "openai", str "OpenAI GPT-4.1 Mini", str "openai",
       str "gpt-4.1-mini-2025-04-14", true⟩]
   | none => []) ++
  (match st.anthropicLLM with
   | some _ =>
     [⟨str "anthropic", str "Anthropic Claude 3 Haiku", str "anthropic",
       str "claude-3-haiku-20240307", true⟩]
   | none => [])

/-- A reachable demo database exposing one base table and one extra relation
(for example a view); its introspection query reports only the base table. -/
def demoWorld : DbWorld :=
  { reachable := true,
    visibleTables := [str "orders", str "v_orders"],
    introspection := .ok (str "table_name\norders") }

/-- An unreachable demo database. -/
def unreachableWorld : DbWorld :=
  { reachable := false, visibleTables := [], introspection := .error () }

/-- A fully populated demo configuration. -/
def demoCfg : UserDatasourceConfig :=
  { host := str "localhost", port := 5432, database := str "sales",
    username := str "u", password := str "p", type := .postgres }

/-- A demo configuration whose required `host` field is the empty string. -/
def cfgEmptyHost : UserDatasourceConfig :=
  { host := [], port := 5432, database := str "sales",
    username := str "u", password := str "p", type := .postgres }

/-- The resolution result `getSqlDatabase` computes for `demoWorld` and
`demoCfg`. -/
def demoResolveOk : ResolveOk :=
  ⟨⟨finalOptionsFor demoCfg, [str "orders", str "v_orders"]⟩, [str "orders"]⟩

/-- A one-row demo payload for the export tool. -/
def demoRows : List Row := [[(str "a", str "1")]]

/-- Demo configuration bound to the logical database `sales`. -/
def cfgSales : UserDatasourceConfig :=
  { host := str "db1", port := 5432, database := str "sales",
    username := str "u", password := str "p", type := .postgres }

/-- Demo configuration bound to the logical database `hr`. -/
def cfgHr : UserDatasourceConfig :=
  { host := str "db2", port := 5432, database := str "hr",
    username := str "u", password := str "p", type := .postgres }

/-- Demo registry state with both providers configured. -/
def demoServiceState : ServiceState :=
  initLLMs (some (str "sk-alpha")) (some (str "sk-beta"))

/-- A list whose `isEmpty` test succeeds is the empty list. -/
theorem isEmptyStr (l : Str) (h : l.isEmpty = true) : l = [] := by
  cases l with
  | nil => rfl
  | cons a t => simp at h

/-- One unfolding step of the upload retry loop. -/
theorem uploadLoop_step (up : Nat → Bool) (f a : Nat) :
    uploadLoop up (f + 1) a =
      if up a then (.ok (), 1, [])
      else if maxRetries ≤ a + 1 then (.error uploadFailMsg, 1, [])
      else ((uploadLoop up f (a + 1)).1, (uploadLoop up f (a + 1)).2.1 + 1,
        2 ^ (a + 1) * 1000 :: (uploadLoop up f (a + 1)).2.2) := rfl

/-- The number of `send` calls made by the retry loop is bounded by its fuel. -/
theorem uploadLoop_calls_le (up : Nat → Bool) :
    ∀ f a, (uploadLoop up f a).2.1 ≤ f := by
  intro f
  induction f with
  | zero => intro a; exact Nat.le_refl 0
  | succ n ih =>
    intro a
    rw [uploadLoop_step]
    by_cases h : up a = true
    · rw [if_pos h]; exact Nat.succ_le_succ (Nat.zero_le n)
    · rw [if_neg h]
      by_cases h2 : maxRetries ≤ a + 1
      · rw [if_pos h2]; exact Nat.succ_le_succ (Nat.zero_le n)
      · rw [if_neg h2]
        exact Nat.succ_le_succ (ih (a + 1))

/-- C5: the upload retry loop makes at most `maxRetries` send calls; an
uploader failing exactly twice then succeeding yields success after exactly 3
calls with backoff delays of 2 s and 4 s; an always-failing uploader yields
the aggregate failure after exactly 3 calls. -/
theorem c5_upload_retry_bounds (up : Nat → Bool) :
    (runUploadLoop up).2.1 ≤ maxRetries ∧
    (up 0 = false → up 1 = false → up 2 = true →
      runUploadLoop up = (.ok (), 3, [2000, 4000])) ∧
    ((∀ i, up i = false) →
      runUploadLoop up = (.error uploadFailMsg, 3, [2000, 4000])) := by
  have e : runUploadLoop up = uploadLoop up 3 0 := rfl
  have h30 : uploadLoop up 3 0 =
      if up 0 then (.ok (), 1, [])
      else ((uploadLoop up 2 1).1, (uploadLoop up 2 1).2.1 + 1,
        2000 :: (uploadLoop up 2 1).2.2) := rfl
  have h21 : uploadLoop up 2 1 =
      if up 1 then (.ok (), 1, [])
      else ((uploadLoop up 1 2).1, (uploadLoop up 1 2).2.1 + 1,
        4000 :: (uploadLoop up 1 2).2.2) := rfl
  have h12 : uploadLoop up 1 2 =
      if up 2 then ((.ok (), 1, []) : Except Str Unit × Nat × List Nat)
      else (.error uploadFailMsg, 1, []) := rfl
  refine ⟨uploadLoop_calls_le up maxRetries 0, ?_, ?_⟩
  · intro h0 h1 h2
    rw [e, h30]
    simp only [h0, Bool.false_eq_true, if_false]
    rw [h21]
    simp only [h1, Bool.false_eq_true, if_false]
    rw [h12]
    simp [h2]
  · intro hall
    rw [e, h30]
    simp only [hall 0, Bool.false_eq_true, if_false]
    rw [h21]
    simp only [hall 1, Bool.false_eq_true, if_false]
    rw [h12]
    simp [hall 2]

/-- Witness for C5 at two concrete uploaders. -/
theorem c5_witness :
    runUploadLoop (fun i => decide (2 ≤ i)) = (.ok (), 3, [2000, 4000]) ∧
    runUploadLoop (fun _ => false) = (.error uploadFailMsg, 3, [2000, 4000]) :=
  ⟨(c5_upload_retry_bounds (fun i => decide (2 ≤ i))).2.1 (by decide) (by decide) (by decide),
   (c5_upload_retry_bounds (fun _ => false)).2.2 (fun _ => rfl)⟩

/-- C3: a missing, non-array, or empty `data` argument makes the export
tool's `func` return its descriptive error result with zero upload calls. -/
theorem c3_malformed_data_textual_error_no_upload (env : ExportEnv)
    (wbSize : Str → List Row → Nat) (uploader : Nat → Bool) (isoDate : Str)
    (t : Nat) (f sn : Option Str) :
    excelExportFunc env wbSize uploader isoDate t ⟨.missing, f, sn⟩ =
      ⟨.errNoData, 0, []⟩ ∧
    excelExportFunc env wbSize uploader isoDate t ⟨.notArray, f, sn⟩ =
      ⟨.errNotNonEmptyArray, 0, []⟩ ∧
    excelExportFunc env wbSize uploader isoDate t ⟨.arr [], f, sn⟩ =
      ⟨.errNotNonEmptyArray, 0, []⟩ :=
  ⟨rfl, rfl, rfl⟩

/-- C4: a serialized workbook larger than 50 MB makes the export tool's
`func` return the size-limit error with zero upload calls. -/
theorem c4_size_limit_no_upload (env : ExportEnv) (wbSize : Str → List Row → Nat)
    (uploader : Nat → Bool) (isoDate : Str) (t : Nat) (f sn : Option Str)
    (rows : List Row) (hne : rows ≠ [])
    (hbig : 50 * 1024 * 1024 < wbSize (sanitizeSheetName sn) rows) :
    excelExportFunc env wbSize uploader isoDate t ⟨.arr rows, f, sn⟩ =
      ⟨.errTooLarge (wbSize (sanitizeSheetName sn) rows), 0, []⟩ := by
  have hne' : rows.isEmpty = false := by
    cases rows with
    | nil => exact absurd rfl hne
    | cons a l => rfl
  simp [excelExportFunc, hne', hbig]

/-- Witness for C4 at a concrete oversized workbook. -/
theorem c4_witness :
    excelExportFunc ⟨none, none, none⟩ (fun _ _ => 52428801) (fun _ => true)
      (str "2026-01-01") 0 ⟨.arr demoRows, none, none⟩ =
      ⟨.errTooLarge 52428801, 0, []⟩ :=
  c4_size_limit_no_upload ⟨none, none, none⟩ (fun _ _ => 52428801) (fun _ => true)
    (str "2026-01-01") 0 none none demoRows (by decide) (by decide)

/-- C7: `getLLM` returns the named backend when it is registered, and for any
other provider value falls back to `openaiLLM || anthropicLLM`, the fixed
priority order. -/
theorem c7_backend_selection_deterministic (st : ServiceState) (provider : Option Str) :
    (provider = some (str "openai") → st.openaiLLM.isSome = true →
      getLLM st provider = st.openaiLLM) ∧
    (provider = some (str "anthropic") → st.anthropicLLM.isSome = true →
      getLLM st provider = st.anthropicLLM) ∧
    (¬ namesRegisteredLLM st provider → getLLM st provider = fallbackLLM st) := by
  refine ⟨?_, ?_, ?_⟩
  · rintro rfl h
    cases ho : st.openaiLLM with
    | none => rw [ho] at h; simp at h
    | some l =>
      simp only [getLLM, if_true]
      rw [ho]
  · rintro rfl h
    cases ha : st.anthropicLLM with
    | none => rw [ha] at h; simp at h
    | some l =>
      simp only [getLLM, if_true]
      rw [ha, if_neg (by decide)]
  · intro h
    cases provider with
    | none => rfl
    | some p =>
      by_cases h1 : p = str "openai"
      · subst h1
        have ho : st.openaiLLM = none := by
          cases ho : st.openaiLLM with
          | none => rfl
          | some l => exact absurd (Or.inl ⟨rfl, by rw [ho]; rfl⟩) h
        simp only [getLLM, if_true]
        rw [ho]
      · by_cases h2 : p = str "anthropic"
        · subst h2
          have ha : st.anthropicLLM = none := by
            cases ha : st.anthropicLLM with
            | none => rfl
            | some l => exact absurd (Or.inr ⟨rfl, by rw [ha]; rfl⟩) h
          simp only [getLLM, if_true]
          rw [ha, if_neg h1]
        · simp only [getLLM]
          rw [if_neg h1, if_neg h2]

/-- Witness for C7 at a concrete registry state. -/
theorem c7_witness :
    getLLM demoServiceState (some (str "openai")) = demoServiceState.openaiLLM ∧
    getLLM demoServiceState (some (str "anthropic")) = demoServiceState.anthropicLLM ∧
    getLLM demoServiceState (some (str "gemini")) = fallbackLLM demoServiceState :=
  ⟨(c7_backend_selection_deterministic demoServiceState (some (str "openai"))).1
      rfl (by decide),
   (c7_backend_selection_deterministic demoServiceState (some (str "anthropic"))).2.1
      rfl (by decide),
   (c7_backend_selection_deterministic demoServiceState (some (str "gemini"))).2.2
      (by decide)⟩

/-- C10: the descriptor list of `getAvailableLLMs` depends only on which
credentials are configured, never on the credential values themselves. -/
theorem c10_descriptors_credential_independent
    (openaiKey anthropicKey openaiKey' anthropicKey' : Option Str)
    (h1 : jsTruthy openaiKey = jsTruthy openaiKey')
    (h2 : jsTruthy anthropicKey = jsTruthy anthropicKey') :
    getAvailableLLMs (initLLMs openaiKey anthropicKey) =
      getAvailableLLMs (initLLMs openaiKey' anthropicKey') := by
  unfold getAvailableLLMs initLLMs
  rw [← h1, ← h2]
  cases jsTruthy openaiKey <;> cases jsTruthy anthropicKey <;> simp

/-- Witness for C10 at two distinct concrete credentials. -/
theorem c10_witness :
    getAvailableLLMs (initLLMs (some (str "sk-live-1")) none) =
      getAvailableLLMs (initLLMs (some (str "sk-test-2")) none) :=
  c10_descriptors_credential_independent (some (str "sk-live-1")) none
    (some (str "sk-test-2")) none (by decide) rfl

/-- C1 (code bug): on a reachable database whose driver exposes a relation
absent from the introspected base tables, `getSqlDatabase` returns a live
connection whose visible table set is not restricted to the confirmed
tables — the computed `existingTables` list is never applied to the final
connection's options. -/
theorem c1_final_connection_not_restricted :
    isOkResolve (getSqlDatabase demoWorld (some demoCfg)) = true ∧
    resolveExisting (getSqlDatabase demoWorld (some demoCfg)) = [str "orders"] ∧
    str "v_orders" ∈ resolveVisible (getSqlDatabase demoWorld (some demoCfg)) ∧
    str "v_orders" ∉ resolveExisting (getSqlDatabase demoWorld (some demoCfg)) := by
  decide

/-- Counterexample to C2: a configuration whose required `host` field is
empty is not rejected with a configuration error; a live connection is
attempted (and even succeeds when the server is reachable). -/
theorem c2_counterexample_empty_host_not_rejected :
    cfgEmptyHost.host = [] ∧
    isConfigError (getSqlDatabase demoWorld (some cfgEmptyHost)) = false ∧
    isOkResolve (getSqlDatabase demoWorld (some cfgEmptyHost)) = true ∧
    isConfigError (getSqlDatabase unreachableWorld (some cfgEmptyHost)) = false ∧
    isOkResolve (getSqlDatabase unreachableWorld (some cfgEmptyHost)) = false := by
  decide

/-- C2 as amended: only an absent configuration object is rejected with the
configuration error, and whenever a connection is returned its datasource
options carry exactly the supplied field values — no implicit defaults. -/
theorem c2_amended_config_object_check_no_defaults (w : DbWorld)
    (cfg : UserDatasourceConfig) (r : ResolveOk) :
    getSqlDatabase w none = .error .configRequired ∧
    (getSqlDatabase w (some cfg) = .ok r →
      r.conn.options.appDataSourceOptions =
        ⟨cfg.type, cfg.host, cfg.port, cfg.username, cfg.password, cfg.database⟩) := by
  refine ⟨rfl, ?_⟩
  intro h
  unfold getSqlDatabase fromOptionsParams at h
  cases hr : w.reachable with
  | false => rw [hr] at h; simp at h
  | true =>
    rw [hr] at h
    simp only [if_true] at h
    simp only [Except.ok.injEq] at h
    rw [← h]
    rfl

/-- Witness for C2's amended statement at a concrete world and
configuration. -/
theorem c2_amended_witness :
    getSqlDatabase demoWorld none = .error .configRequired ∧
    demoResolveOk.conn.options.appDataSourceOptions =
      ⟨demoCfg.type, demoCfg.host, demoCfg.port, demoCfg.username,
        demoCfg.password, demoCfg.database⟩ :=
  ⟨(c2_amended_config_object_check_no_defaults demoWorld demoCfg demoResolveOk).1,
   (c2_amended_config_object_check_no_defaults demoWorld demoCfg demoResolveOk).2 rfl⟩

/-- The split of a string never produces an empty list of fields. -/
theorem splitCh_ne_nil (sep : Char) : ∀ l : Str, splitCh sep l ≠ [] := by
  intro l
  cases l with
  | nil => simp [splitCh]
  | cons c cs =>
    simp only [splitCh]
    split
    · simp
    · split
      · simp
      · simp

/-- Splitting a string that starts with a separator-free segment followed by
a separator yields that segment as the first field. -/
theorem splitCh_append (sep : Char) (hdr rest : Str) (hh : sep ∉ hdr) :
    splitCh sep (hdr ++ sep :: rest) = hdr :: splitCh sep rest := by
  induction hdr with
  | nil => simp [splitCh]
  | cons c t ih =>
    have hc : ¬ c = sep := fun e => by
      subst e
      exact hh (List.mem_cons_self c t)
    have ht : sep ∉ t := fun m => hh (List.mem_cons_of_mem c m)
    simp only [List.cons_append, splitCh, List.append_eq]
    rw [if_neg hc, ih ht]

/-- C9: the table-list parser degrades to the empty list when introspection
fails, is insensitive to the contents of the (skipped) header row, and every
name it produces is non-empty and the trimmed leading `|`-column of one of
the non-header lines. -/
theorem c9_table_parser_defensive (e : Unit) (s hdr1 hdr2 rest tname : Str) :
    existingTablesOf (Except.error e) = [] ∧
    ('\n' ∉ hdr1 → '\n' ∉ hdr2 →
      parseExistingTables (hdr1 ++ '\n' :: rest) =
        parseExistingTables (hdr2 ++ '\n' :: rest)) ∧
    (tname ∈ parseExistingTables s →
      tname ≠ [] ∧ ∃ line ∈ (splitCh '\n' s).drop 1,
        tname = jsTrim ((splitCh '|' (jsTrim line)).headD [])) := by
  refine ⟨rfl, ?_, ?_⟩
  · intro h1 h2
    unfold parseExistingTables
    rw [splitCh_append '\n' hdr1 rest h1, splitCh_append '\n' hdr2 rest h2]
    simp
  · intro ht
    unfold parseExistingTables parseRows at ht
    rcases List.mem_filter.mp ht with ⟨hmem, hpred⟩
    have htne : tname ≠ [] := by
      intro hcontra
      rw [hcontra] at hpred
      simp at hpred
    rcases List.mem_map.mp hmem with ⟨l, hl, hleq⟩
    rcases List.mem_filter.mp hl with ⟨hlm, _⟩
    rcases List.mem_map.mp hlm with ⟨line, hline, hlineq⟩
    exact ⟨htne, line, hline, by rw [← hleq, ← hlineq]⟩

/-- Witness for C9 at concrete introspection outputs. -/
theorem c9_witness :
    existingTablesOf (Except.error ()) = [] ∧
    parseExistingTables (str "table_name" ++ '\n' :: str "users") =
      parseExistingTables (str "header" ++ '\n' :: str "users") ∧
    (str "users" ≠ [] ∧
      ∃ line ∈ (splitCh '\n' (str "table_name\nusers | 10\n\norders|5")).drop 1,
        str "users" = jsTrim ((splitCh '|' (jsTrim line)).headD [])) :=
  ⟨(c9_table_parser_defensive () (str "x") (str "a") (str "b") (str "c") (str "d")).1,
   (c9_table_parser_defensive () (str "x") (str "table_name") (str "header")
      (str "users") (str "d")).2.1 (by decide) (by decide),
   (c9_table_parser_defensive () (str "table_name\nusers | 10\n\norders|5")
      (str "a") (str "b") (str "c") (str "users")).2.2 (by decide)⟩

/-- No character of the fallback sheet name is an invalid sheet character. -/
theorem reportChars : ∀ c ∈ str "Report", invalidSheetChar c = false := by decide

/-- The sheet-name replacement never produces an invalid character. -/
theorem invalid_replSheet (c : Char) : invalidSheetChar (replSheetChar c) = false := by
  by_cases h : invalidSheetChar c = true
  · rw [replSheetChar, if_pos h]; decide
  · rw [replSheetChar, if_neg h]; simpa using h

/-- Membership is preserved from `dropWhile` back to the original list. -/
theorem mem_of_dropWhile {p : Char → Bool} {l : Str} {c : Char}
    (h : c ∈ l.dropWhile p) : c ∈ l :=
  (List.dropWhile_sublist p).mem h

/-- Membership is preserved from a trimmed string back to the original. -/
theorem mem_of_jsTrim {l : Str} {c : Char} (h : c ∈ jsTrim l) : c ∈ l := by
  unfold jsTrim at h
  rw [List.mem_reverse] at h
  have h2 := mem_of_dropWhile h
  rw [List.mem_reverse] at h2
  exact mem_of_dropWhile h2

/-- Every character of a sanitized sheet name is valid. -/
theorem sanitizeSheetName_chars (n : Option Str) :
    ∀ c ∈ sanitizeSheetName n, invalidSheetChar c = false := by
  intro c hc
  simp only [sanitizeSheetName] at hc
  split at hc
  · exact reportChars c hc
  · have h1 : c ∈ jsTrim ((sheetNameBase n).map replSheetChar) :=
      List.take_subset 31 _ hc
    have h2 := mem_of_jsTrim h1
    rcases List.mem_map.mp h2 with ⟨x, _, hx⟩
    rw [← hx]
    exact invalid_replSheet x

/-- A sanitized sheet name is never empty. -/
theorem sanitizeSheetName_ne_nil (n : Option Str) : sanitizeSheetName n ≠ [] := by
  simp only [sanitizeSheetName]
  split
  · decide
  · rename_i hns
    intro hcontra
    rw [hcontra] at hns
    simp at hns

/-- A sanitized sheet name has at most 31 characters. -/
theorem sanitizeSheetName_length (n : Option Str) :
    (sanitizeSheetName n).length ≤ 31 := by
  simp only [sanitizeSheetName]
  split
  · decide
  · exact List.length_take_le 31 _

/-- Re-sanitizing is the identity on any non-empty, trim-stable string of
valid characters with at most 31 characters. -/
theorem sanitizeSheetName_fix (R : Str) (hne : R ≠ [])
    (hchars : ∀ c ∈ R, invalidSheetChar c = false) (hlen : R.length ≤ 31)
    (h : jsTrim R = R) : sanitizeSheetName (some R) = R := by
  have hmap : R.map replSheetChar = R := by
    have heq : ∀ c ∈ R, replSheetChar c = c := fun c hc => by
      rw [replSheetChar, if_neg (by simp [hchars c hc])]
    rw [List.map_congr_left heq]
    simp
  have hnotempty : ¬ R.isEmpty = true := fun hh => hne (isEmptyStr R hh)
  simp only [sanitizeSheetName, sheetNameBase]
  rw [if_neg hnotempty, hmap, h, List.take_of_length_le hlen, if_neg hnotempty]

/-- C6 as amended for the sheet-name sanitizer: on every input whose
sanitized form is trim-stable (no leading or trailing whitespace, which holds
in particular whenever the cleaned name is at most 31 characters long),
sanitizing twice equals sanitizing once. -/
theorem c6_amended_sheet_sanitizer_conditional_idempotent (n : Option Str)
    (h : jsTrim (sanitizeSheetName n) = sanitizeSheetName n) :
    sanitizeSheetName (some (sanitizeSheetName n)) = sanitizeSheetName n :=
  sanitizeSheetName_fix (sanitizeSheetName n) (sanitizeSheetName_ne_nil n)
    (sanitizeSheetName_chars n) (sanitizeSheetName_length n) h

/-- Witness for C6's amended statement at a concrete sheet name. -/
theorem c6_amended_witness :
    sanitizeSheetName (some (sanitizeSheetName (some (str "Q3 Revenue")))) =
      sanitizeSheetName (some (str "Q3 Revenue")) :=
  c6_amended_sheet_sanitizer_conditional_idempotent (some (str "Q3 Revenue"))
    (by decide)

/-- Counterexample to C6 as stated: the filename sanitizer appends a new
timestamp on every application (even at a fixed clock), and the sheet-name
sanitizer is not idempotent on a 32-character input whose 31-character cut
ends in a space. -/
theorem c6_counterexample_sanitizers_not_idempotent :
    sanitizeFilename 0 (sanitizeFilename 0 (str "a")) ≠ sanitizeFilename 0 (str "a") ∧
    sanitizeSheetName (some (sanitizeSheetName
        (some (str "aaaaaaaaaaaaaaaaaaaaaaaaaaaaaa b")))) ≠
      sanitizeSheetName (some (str "aaaaaaaaaaaaaaaaaaaaaaaaaaaaaa b")) := by
  decide

/-- Counterexample to C8 as stated: two exports made in the same process for
turns bound to different logical databases (`sales` and `hr`) receive the
same object key, because the key's namespace component is the process-wide
`PG_DATABASE` label, not the turn's data source. -/
theorem c8_counterexample_key_ignores_data_source :
    cfgSales.database ≠ cfgHr.database ∧
    turnExportObjectKey cfgSales ⟨none, none, some (str "prod")⟩
        (str "2026-10-11") 17 (some (str "q3.xlsx")) =
      turnExportObjectKey cfgHr ⟨none, none, some (str "prod")⟩
        (str "2026-10-11") 17 (some (str "q3.xlsx")) := by
  decide

/-- C8 as amended: the object key is namespaced under `reports/` by the
process-level `PG_DATABASE` label (default `db`); exports requesting the same
filename under distinct labels receive distinct keys. -/
theorem c8_amended_label_namespacing (e1 e2 : ExportEnv) (iso1 iso2 : Str)
    (t : Nat) (fname : Str) (hf : fname ≠ []) (hl : pgLabel e1 ≠ pgLabel e2) :
    exportObjectKey e1 iso1 t (some fname) ≠ exportObjectKey e2 iso2 t (some fname) := by
  intro heq
  apply hl
  have hfe : fname.isEmpty = false := by
    cases fname with
    | nil => exact absurd rfl hf
    | cons a l => rfl
  simp only [exportObjectKey, exportFinalFilename, jsOr, hfe, Bool.false_eq_true,
    if_false] at heq
  have h1 := List.append_cancel_right heq
  have h2 := List.append_cancel_right h1
  exact List.append_cancel_left h2

/-- Witness for C8's amended statement at two concrete labels. -/
theorem c8_amended_witness :
    exportObjectKey ⟨none, none, some (str "alpha")⟩ (str "2026-01-01") 3
        (some (str "r.xlsx")) ≠
      exportObjectKey ⟨none, none, none⟩ (str "2026-02-02") 3
        (some (str "r.xlsx")) :=
  c8_amended_label_namespacing ⟨none, none, some (str "alpha")⟩ ⟨none, none, none⟩
    (str "2026-01-01") (str "2026-02-02") 3 (str "r.xlsx") (by decide) (by decide)

end ReportingAgent
